import Mathlib

/-!
Verification of the Fordefi webhook service (`src/app.py`) against its
natural-language specification.

The embedding mirrors the Python source:

* `Json` models the dynamic values produced by `json.loads` / `response.json()`
  (numbers are modelled as integers; no claim depends on float values).
* Python operations that can raise are modelled in `Except PyErr`:
  `d.get(k, default)` (`pyGetD`, raises `AttributeError` on a non-dict),
  subscription `d[k]` / `xs[i]` (`pySubscriptStr` / `pySubscriptNat`, raising
  `KeyError` / `IndexError` / `TypeError` exactly as CPython does on JSON
  values), `len` (`pyLen`) and `str.lower` (`pyLower`; the addresses handled
  by the service are ASCII hex strings, so ASCII case mapping is faithful).
* Python truthiness (`if x:`) is `Json.truthy`.
* Library functions that live outside the repository are parameters:
  `base64.b64decode` and `ecdsa.VerifyingKey.verify` (each may return a value
  or raise, `PyResult`), and `json.loads` (`Option Json`; a `JSONDecodeError`
  is caught by the handler itself, so `Option` suffices there).
* The outcome of the two outbound HTTP calls (fetch and abort) is a `World`:
  a `requests` transport/HTTP-status error (caught by the handler), a JSON
  body, or a 2xx whose body is not JSON (`response.json()` raises an
  uncaught `json.JSONDecodeError`).
* The handler `fordefi_webhook` returns the HTTP `Response` (a 200 payload,
  a raised `HTTPException`, or an unhandled Python exception, which the
  server surfaces as a 5xx) together with the ordered list of `Effect`s it
  performed: the `json.loads` call, the fetch GET and the abort POST.
  The `decode()` on line 72 of the source is diagnostic logging of the raw
  body; the bodies considered by the claims are JSON, hence valid UTF-8, so
  it cannot raise and is not modelled.
-/

inductive Json where
  | null
  | bool (b : Bool)
  | num (n : Int)
  | str (s : String)
  | arr (xs : List Json)
  | obj (kvs : List (String × Json))
deriving Repr

/-- Python truthiness of a JSON value: `None`, `False`, `0`, `""`, `[]` and
`\x7b\x7d` are falsy, everything else truthy. -/
def Json.truthy : Json → Bool
  | .null => false
  | .bool b => b
  | .num n => !(n == 0)
  | .str s => !(s == "")
  | .arr xs => !xs.isEmpty
  | .obj kvs => !kvs.isEmpty

/-- Exceptions the handler's data-access code can raise. -/
inductive PyErr where
  | attributeError
  | keyError
  | indexError
  | typeError
  | jsonDecodeError
deriving DecidableEq, Repr

/-- Python `x.get(k, default)`: only dicts have `.get`; any other receiver
raises `AttributeError`. -/
def pyGetD : Json → String → Json → Except PyErr Json
  | .obj kvs, k, d => .ok ((kvs.lookup k).getD d)
  | _, _, _ => .error .attributeError

/-- Python `x[k]` for a string key on a JSON value: dict lookup raising
`KeyError` on a missing key; every non-dict JSON value raises `TypeError`. -/
def pySubscriptStr : Json → String → Except PyErr Json
  | .obj kvs, k =>
    match kvs.lookup k with
    | some v => .ok v
    | none => .error .keyError
  | _, _ => .error .typeError

/-- Python `x[i]` for an integer index: list/str index with `IndexError` out
of range; a JSON dict has only string keys, so an integer key raises
`KeyError`; other values raise `TypeError`. -/
def pySubscriptNat : Json → Nat → Except PyErr Json
  | .arr xs, i =>
    match xs.get? i with
    | some v => .ok v
    | none => .error .indexError
  | .str s, i =>
    match s.data.get? i with
    | some c => .ok (.str ⟨[c]⟩)
    | none => .error .indexError
  | .obj _, _ => .error .keyError
  | _, _ => .error .typeError

/-- Python `len(x)` on a JSON value; numbers, booleans and `None` raise
`TypeError`. -/
def pyLen : Json → Except PyErr Nat
  | .arr xs => .ok xs.length
  | .str s => .ok s.length
  | .obj kvs => .ok kvs.length
  | _ => .error .typeError

/-- ASCII lower-casing of one character, as Python `str.lower` acts on the
ASCII range (the vault addresses are ASCII hex strings). -/
def asciiLowerChar (c : Char) : Char :=
  if 65 ≤ c.toNat ∧ c.toNat ≤ 90 then Char.ofNat (c.toNat + 32) else c

/-- ASCII lower-casing of a string. -/
def asciiLower (s : String) : String := ⟨s.data.map asciiLowerChar⟩

/-- Python `x.lower()`: only strings have `.lower`; any other receiver raises
`AttributeError`. -/
def pyLower : Json → Except PyErr String
  | .str s => .ok (asciiLower s)
  | _ => .error .attributeError

/-- Result of running a piece of Python library code: it either returns a
value or raises some exception. -/
inductive PyResult (α : Type) where
  | ok (a : α)
  | raises
deriving DecidableEq, Repr

/-- Body of the `try` block of `verify_signature` (src/app.py lines 22-28):
base64-decode the signature string, then run the ECDSA verification on the
decoded bytes and the raw body.  `b64decode` and `ecdsaVerify` are the
library functions `base64.b64decode` and `VerifyingKey.verify` (the latter
bound to the process-wide public key); either may raise. -/
def verify_signature_tryBody (b64decode : String → PyResult (List Nat))
    (ecdsaVerify : List Nat → List Nat → PyResult Bool)
    (signature : String) (body : List Nat) : PyResult Bool :=
  match b64decode signature with
  | .raises => .raises
  | .ok sigBytes => ecdsaVerify sigBytes body

/-- `verify_signature` (src/app.py lines 21-31): run the `try` body; the
`except Exception` clause turns any raised exception into `False`, so the
function always returns a boolean to its caller. -/
def verify_signature (b64decode : String → PyResult (List Nat))
    (ecdsaVerify : List Nat → List Nat → PyResult Bool)
    (signature : String) (body : List Nat) : Bool :=
  match verify_signature_tryBody b64decode ecdsaVerify signature body with
  | .ok b => b
  | .raises => false

/-- An inbound webhook request: the optional `X-Signature` header and the raw
body bytes. -/
structure Request where
  xSignature : Option String
  rawBody : List Nat

/-- Outcome of one outbound HTTP call made with `requests`:
`reqError` is a `requests.exceptions.RequestException` (transport failure, or
a non-2xx status turned into an exception by `raise_for_status`);
`success` is a 2xx response whose body parses as the given JSON;
`badBody` is a 2xx response whose body is not JSON, in which case
`response.json()` raises an uncaught `json.JSONDecodeError`. -/
inductive CallResult where
  | reqError
  | success (body : Json)
  | badBody

/-- The external world a single webhook run interacts with: what the
transaction-fetch GET and the abort POST would return. -/
structure World where
  fetchResult : CallResult
  abortResult : CallResult

/-- Externally visible effects of one handler run, in order. -/
inductive Effect where
  | parse
  | fetchTx (txId : Json)
  | abortTx (txId : Json)

def Effect.isAbort : Effect → Bool
  | .abortTx _ => true
  | _ => false

/-- Number of abort POSTs in an effect trace. -/
def countAborts (tr : List Effect) : Nat := (tr.filter Effect.isAbort).length

/-- The HTTP response of one handler run: a 200 JSON message, a raised
`HTTPException` with status code and detail, or an unhandled Python
exception (which FastAPI surfaces as a 500). -/
inductive Response where
  | ok (msg : String)
  | httpError (code : Nat) (detail : String)
  | crash (e : PyErr)
deriving DecidableEq, Repr

/-- Line 84 of the source:
`data.get("event", dict()).get("transaction_id")`. -/
def getTransactionId (data : Json) : Except PyErr Json := do
  let evt ← pyGetD data "event" (.obj [])
  pyGetD evt "transaction_id" .null

/-- Line 109 of the source: the chain of defaulted `.get` calls producing
`transfers` (default `[]`). -/
def getTransfers (td : Json) : Except PyErr Json := do
  let mr ← pyGetD td "mined_result" (.obj [])
  let eff ← pyGetD mr "effects" (.obj [])
  pyGetD eff "transfers" (.arr [])

/-- Lines 108-113 of the source: `vault_address` starts as `None`; if
`transfers` is truthy and `len(transfers) > 0`, it becomes
`transfers[0].get("from", dict()).get("vault", dict()).get("address")`. -/
def extractVaultAddress (transfers : Json) : Except PyErr Json :=
  if transfers.truthy then do
    let n ← pyLen transfers
    if n > 0 then do
      let t0 ← pySubscriptNat transfers 0
      let fr ← pyGetD t0 "from" (.obj [])
      let vlt ← pyGetD fr "vault" (.obj [])
      pyGetD vlt "address" .null
    else .ok .null
  else .ok .null

/-- Line 121 of the source: the direct subscription chain
`transaction_data["mined_result"]["effects"]["balance_changes"][1]["address"]["vault"]["address"]`. -/
def getReceiverAddress (td : Json) : Except PyErr Json := do
  let mr ← pySubscriptStr td "mined_result"
  let eff ← pySubscriptStr mr "effects"
  let bc ← pySubscriptStr eff "balance_changes"
  let e1 ← pySubscriptNat bc 1
  let ad ← pySubscriptStr e1 "address"
  let vlt ← pySubscriptStr ad "vault"
  pySubscriptStr vlt "address"

/-- Lines 129-148 of the source: the address comparison and the conditional
abort POST.  Mirrors the short-circuit of
`if not receiver_address or vault_address.lower() == receiver_address.lower():`
(left operand first; `.lower()` on the vault address is evaluated before the
one on the receiver address). -/
def decideAndMaybeAbort (w : World) (txId vaultAddress receiverAddress : Json) :
    Response × List Effect :=
  if receiverAddress.truthy = false then
    (.ok "Webhook received successfully", [])
  else
    match pyLower vaultAddress with
    | .error e => (.crash e, [])
    | .ok vl =>
      match pyLower receiverAddress with
      | .error e => (.crash e, [])
      | .ok rl =>
        if vl = rl then
          (.ok "Webhook received successfully", [])
        else
          match w.abortResult with
          | .reqError => (.ok "Webhook received successfully", [.abortTx txId])
          | .badBody => (.crash .jsonDecodeError, [.abortTx txId])
          | .success _ => (.ok "Webhook received successfully", [.abortTx txId])

/-- Lines 106-148 of the source: extraction of the two addresses from a
truthy `transaction_data`, the two 400 guards, and the decision. -/
def evaluateRecord (w : World) (txId td : Json) : Response × List Effect :=
  match getTransfers td with
  | .error e => (.crash e, [])
  | .ok transfers =>
    match extractVaultAddress transfers with
    | .error e => (.crash e, [])
    | .ok vaultAddress =>
      if vaultAddress.truthy = false then
        (.httpError 400 "Vault address not found in the transaction data.", [])
      else
        match getReceiverAddress td with
        | .error e => (.crash e, [])
        | .ok receiverAddress =>
          if receiverAddress.truthy = false then
            (.httpError 400 "Receiver address not found in raw_data.", [])
          else
            decideAndMaybeAbort w txId vaultAddress receiverAddress

/-- Lines 83-148 of the source: extract `transaction_id`; if truthy, perform
the fetch (a `RequestException` is caught and leaves `transaction_data` as
`None`); a falsy `transaction_data` short-circuits to the no-op 200. -/
def processEvent (w : World) (data : Json) : Response × List Effect :=
  match getTransactionId data with
  | .error e => (.crash e, [])
  | .ok txId =>
    if txId.truthy then
      match w.fetchResult with
      | .reqError => (.ok "Webhook processed; no transaction data found.", [.fetchTx txId])
      | .badBody => (.crash .jsonDecodeError, [.fetchTx txId])
      | .success td =>
        if td.truthy = false then
          (.ok "Webhook processed; no transaction data found.", [.fetchTx txId])
        else
          let r := evaluateRecord w txId td
          (r.1, .fetchTx txId :: r.2)
    else
      (.ok "Webhook processed; no transaction data found.", [])

/-- The handler `fordefi_webhook` (src/app.py lines 33-148).  `jsonLoads` is
the library function `json.loads`; its failure (`JSONDecodeError`) is caught
by the handler and mapped to a 400, so `Option` captures it. -/
def fordefi_webhook (b64decode : String → PyResult (List Nat))
    (ecdsaVerify : List Nat → List Nat → PyResult Bool)
    (jsonLoads : List Nat → Option Json)
    (w : World) (req : Request) : Response × List Effect :=
  match req.xSignature with
  | none => (.httpError 401 "Missing signature", [])
  | some sig =>
    if sig = "" then
      (.httpError 401 "Missing signature", [])
    else if verify_signature b64decode ecdsaVerify sig req.rawBody = false then
      (.httpError 401 "Invalid signature", [])
    else
      match jsonLoads req.rawBody with
      | none => (.httpError 400 "Invalid JSON in request body", [.parse])
      | some data =>
        let r := processEvent w data
        (r.1, .parse :: r.2)

/-! Concrete fixtures used by witnesses and counterexamples. -/

/-- A base64 decoder that succeeds on every input (the decoded bytes are
irrelevant to the control-flow claims). -/
def okB64 : String → PyResult (List Nat) := fun _ => .ok []

/-- An ECDSA verifier that accepts every (signature bytes, body) pair. -/
def okVerify : List Nat → List Nat → PyResult Bool := fun _ _ => .ok true

/-- A `json.loads` stand-in that parses every body to the fixed document. -/
def loadsOf (j : Json) : List Nat → Option Json := fun _ => some j

/-- A request with a present, non-empty signature header. -/
def signedReq : Request := ⟨some "sig", []⟩

/-- A webhook body carrying a `transaction_id` under `event`. -/
def eventData (txid : Json) : Json := .obj [("event", .obj [("transaction_id", txid)])]

/-- The canonical two-entry transaction record: one transfer whose
`from.vault.address` is `origin`, and two balance changes, the second of
which has `address.vault.address` equal to `receiver`. -/
def mkRecord (origin receiver : Json) : Json :=
  .obj [("mined_result", .obj [("effects", .obj [
    ("transfers", .arr [.obj [("from", .obj [("vault", .obj [("address", origin)])])]]),
    ("balance_changes", .arr [.obj [],
      .obj [("address", .obj [("vault", .obj [("address", receiver)])])]])])])]

/-- A record with a valid origin transfer but an empty `balance_changes`
list, so that index 1 is out of range. -/
def shortRecord : Json :=
  .obj [("mined_result", .obj [("effects", .obj [
    ("transfers", .arr [.obj [("from", .obj [("vault", .obj [("address", .str "0xAAA")])])]]),
    ("balance_changes", .arr [])])])]

/-- A record whose first transfer has `from` bound to a string, so the
`from.vault.address` path is absent and its traversal hits a non-dict. -/
def badFromRecord : Json :=
  .obj [("mined_result", .obj [("effects", .obj [
    ("transfers", .arr [.obj [("from", .str "oops")]])])])]

/-- A record whose `transfers` list is empty (origin address unavailable). -/
def emptyTransfersRecord : Json :=
  .obj [("mined_result", .obj [("effects", .obj [("transfers", .arr [])])])]

/-! Claim theorems. -/

/-- Truthiness of a JSON string is its non-emptiness. -/
theorem Json.truthy_str (s : String) : (Json.str s).truthy = !(s == "") := rfl

/-- C3: for every input pair, `verify_signature` returns a boolean (it is a
total function into `Bool`) and never propagates an exception: if the base64
decode of the signature raises, or the try-block raises anywhere (DER
decoding, curve handling, digest verification inside `ecdsaVerify`), the
result is `false`. -/
theorem verify_signature_catches_all_faults
    (b64decode : String → PyResult (List Nat))
    (ecdsaVerify : List Nat → List Nat → PyResult Bool)
    (signature : String) (body : List Nat)
    (h : b64decode signature = .raises ∨
      verify_signature_tryBody b64decode ecdsaVerify signature body = .raises) :
    verify_signature b64decode ecdsaVerify signature body = false := by
  rcases h with h | h
  · simp [verify_signature, verify_signature_tryBody, h]
  · simp [verify_signature, h]

/-- Witness for C3: a signature string whose base64 decode raises makes
`verify_signature` return `false`. -/
theorem verify_signature_catches_all_faults_witness :
    verify_signature (fun _ => .raises) (fun _ _ => .ok true) "%%%" [] = false :=
  verify_signature_catches_all_faults (fun _ => .raises) (fun _ _ => .ok true) "%%%" []
    (Or.inl rfl)

/-- C9: a request with a missing (or empty, which the `if not signature:`
truthiness test treats the same) `X-Signature` header, or one whose
signature fails verification, is answered 401 with an empty effect trace:
no JSON parsing, no fetch, no abort. -/
theorem webhook_unauthorized_401
    (b64decode : String → PyResult (List Nat))
    (ecdsaVerify : List Nat → List Nat → PyResult Bool)
    (jsonLoads : List Nat → Option Json) (w : World) (req : Request)
    (h : req.xSignature = none ∨ req.xSignature = some "" ∨
      ∃ s, req.xSignature = some s ∧ s ≠ "" ∧
        verify_signature b64decode ecdsaVerify s req.rawBody = false) :
    ((fordefi_webhook b64decode ecdsaVerify jsonLoads w req).1 =
        .httpError 401 "Missing signature" ∨
      (fordefi_webhook b64decode ecdsaVerify jsonLoads w req).1 =
        .httpError 401 "Invalid signature") ∧
    (fordefi_webhook b64decode ecdsaVerify jsonLoads w req).2 = [] := by
  rcases h with h | h | ⟨s, hs, hne, hv⟩
  · simp [fordefi_webhook, h]
  · simp [fordefi_webhook, h]
  · simp [fordefi_webhook, hs, hne, hv]

/-- Witness for C9: a request with no `X-Signature` header is answered 401
with an empty effect trace. -/
theorem webhook_unauthorized_401_witness :
    ((fordefi_webhook okB64 okVerify (loadsOf .null) ⟨.reqError, .reqError⟩
        ⟨none, []⟩).1 = .httpError 401 "Missing signature" ∨
      (fordefi_webhook okB64 okVerify (loadsOf .null) ⟨.reqError, .reqError⟩
        ⟨none, []⟩).1 = .httpError 401 "Invalid signature") ∧
    (fordefi_webhook okB64 okVerify (loadsOf .null) ⟨.reqError, .reqError⟩
      ⟨none, []⟩).2 = [] :=
  webhook_unauthorized_401 okB64 okVerify (loadsOf .null) ⟨.reqError, .reqError⟩
    ⟨none, []⟩ (Or.inl rfl)

/-- C7: a well-signed, well-formed JSON payload whose event carries no
(truthy) `transaction_id` is answered 200 with the no-op message, and the
effect trace contains only the JSON parse: the fetcher and the abort issuer
are never invoked. -/
theorem webhook_no_transaction_id_noop
    (b64decode : String → PyResult (List Nat))
    (ecdsaVerify : List Nat → List Nat → PyResult Bool)
    (jsonLoads : List Nat → Option Json) (w : World) (req : Request)
    (s : String) (data txId : Json)
    (hsig : req.xSignature = some s) (hne : s ≠ "")
    (hver : verify_signature b64decode ecdsaVerify s req.rawBody = true)
    (hparse : jsonLoads req.rawBody = some data)
    (hid : getTransactionId data = .ok txId) (hfalsy : txId.truthy = false) :
    fordefi_webhook b64decode ecdsaVerify jsonLoads w req =
      (.ok "Webhook processed; no transaction data found.", [.parse]) := by
  simp [fordefi_webhook, hsig, hne, hver, hparse, processEvent, hid, hfalsy]

/-- Witness for C7: the body is the JSON document with an empty `event`
object. -/
theorem webhook_no_transaction_id_noop_witness :
    fordefi_webhook okB64 okVerify (loadsOf (.obj [("event", .obj [])]))
      ⟨.reqError, .reqError⟩ signedReq =
      (.ok "Webhook processed; no transaction data found.", [.parse]) :=
  webhook_no_transaction_id_noop okB64 okVerify (loadsOf (.obj [("event", .obj [])]))
    ⟨.reqError, .reqError⟩ signedReq "sig" (.obj [("event", .obj [])]) .null
    rfl (by decide) rfl rfl rfl rfl

/-- C8: a well-signed, well-formed event with a truthy `transaction_id`
whose fetch fails with a `requests` transport/HTTP error is still answered
200 with the no-op message; the trace records the fetch attempt and nothing
else, so the evaluator never runs and the abort issuer is never invoked. -/
theorem webhook_fetch_failure_noop
    (b64decode : String → PyResult (List Nat))
    (ecdsaVerify : List Nat → List Nat → PyResult Bool)
    (jsonLoads : List Nat → Option Json) (w : World) (req : Request)
    (s : String) (data txId : Json)
    (hsig : req.xSignature = some s) (hne : s ≠ "")
    (hver : verify_signature b64decode ecdsaVerify s req.rawBody = true)
    (hparse : jsonLoads req.rawBody = some data)
    (hid : getTransactionId data = .ok txId) (htruthy : txId.truthy = true)
    (hfetch : w.fetchResult = .reqError) :
    fordefi_webhook b64decode ecdsaVerify jsonLoads w req =
      (.ok "Webhook processed; no transaction data found.",
        [.parse, .fetchTx txId]) := by
  simp [fordefi_webhook, hsig, hne, hver, hparse, processEvent, hid, htruthy, hfetch]

/-- Witness for C8: the fetch returns a transport error. -/
theorem webhook_fetch_failure_noop_witness :
    fordefi_webhook okB64 okVerify (loadsOf (eventData (.str "tx")))
      ⟨.reqError, .reqError⟩ signedReq =
      (.ok "Webhook processed; no transaction data found.",
        [.parse, .fetchTx (.str "tx")]) :=
  webhook_fetch_failure_noop okB64 okVerify (loadsOf (eventData (.str "tx")))
    ⟨.reqError, .reqError⟩ signedReq "sig" (eventData (.str "tx")) (.str "tx")
    rfl (by decide) rfl rfl rfl rfl rfl

/-- C10: when the fetch succeeds but the returned JSON document is falsy
(for example the empty object or `null`), the handler treats it as no
transaction data: 200 no-op, fetch in the trace, and neither the evaluator
nor the abort issuer runs. -/
theorem webhook_falsy_record_noop
    (b64decode : String → PyResult (List Nat))
    (ecdsaVerify : List Nat → List Nat → PyResult Bool)
    (jsonLoads : List Nat → Option Json) (w : World) (req : Request)
    (s : String) (data txId td : Json)
    (hsig : req.xSignature = some s) (hne : s ≠ "")
    (hver : verify_signature b64decode ecdsaVerify s req.rawBody = true)
    (hparse : jsonLoads req.rawBody = some data)
    (hid : getTransactionId data = .ok txId) (htruthy : txId.truthy = true)
    (hfetch : w.fetchResult = .success td) (hfalsy : td.truthy = false) :
    fordefi_webhook b64decode ecdsaVerify jsonLoads w req =
      (.ok "Webhook processed; no transaction data found.",
        [.parse, .fetchTx txId]) := by
  simp [fordefi_webhook, hsig, hne, hver, hparse, processEvent, hid, htruthy, hfetch,
    hfalsy]

/-- Witness for C10: the fetch succeeds with the empty JSON object. -/
theorem webhook_falsy_record_noop_witness :
    fordefi_webhook okB64 okVerify (loadsOf (eventData (.str "tx")))
      ⟨.success (.obj []), .reqError⟩ signedReq =
      (.ok "Webhook processed; no transaction data found.",
        [.parse, .fetchTx (.str "tx")]) :=
  webhook_falsy_record_noop okB64 okVerify (loadsOf (eventData (.str "tx")))
    ⟨.success (.obj []), .reqError⟩ signedReq "sig" (eventData (.str "tx"))
    (.str "tx") (.obj []) rfl (by decide) rfl rfl rfl rfl rfl rfl

/-- C4: when both extracted addresses are present non-empty strings that
differ even after ASCII lower-casing, the run performs exactly one abort
POST: the effect trace is parse, fetch, abort — whatever the abort call
itself returns. -/
theorem webhook_mismatch_aborts_exactly_once
    (b64decode : String → PyResult (List Nat))
    (ecdsaVerify : List Nat → List Nat → PyResult Bool)
    (jsonLoads : List Nat → Option Json) (w : World) (req : Request)
    (s : String) (data txId td ts : Json) (o r : String)
    (hsig : req.xSignature = some s) (hne : s ≠ "")
    (hver : verify_signature b64decode ecdsaVerify s req.rawBody = true)
    (hparse : jsonLoads req.rawBody = some data)
    (hid : getTransactionId data = .ok txId) (htruthy : txId.truthy = true)
    (hfetch : w.fetchResult = .success td) (htd : td.truthy = true)
    (hts : getTransfers td = .ok ts)
    (hvault : extractVaultAddress ts = .ok (.str o)) (ho : o ≠ "")
    (hrecv : getReceiverAddress td = .ok (.str r)) (hr : r ≠ "")
    (hmm : asciiLower o ≠ asciiLower r) :
    (fordefi_webhook b64decode ecdsaVerify jsonLoads w req).2 =
      [.parse, .fetchTx txId, .abortTx txId] ∧
    countAborts (fordefi_webhook b64decode ecdsaVerify jsonLoads w req).2 = 1 := by
  have key : (fordefi_webhook b64decode ecdsaVerify jsonLoads w req).2 =
      [.parse, .fetchTx txId, .abortTx txId] := by
    cases habort : w.abortResult <;>
      simp [fordefi_webhook, hsig, hne, hver, hparse, processEvent, hid, htruthy,
        hfetch, htd, evaluateRecord, hts, hvault, hrecv, decideAndMaybeAbort,
        Json.truthy_str, ho, hr, pyLower, hmm, habort]
  exact ⟨key, by rw [key]; rfl⟩

/-- Witness for C4: origin "0xAAA", receiver "0xBBB", abort POST succeeds. -/
theorem webhook_mismatch_aborts_exactly_once_witness :
    (fordefi_webhook okB64 okVerify (loadsOf (eventData (.str "tx")))
      ⟨.success (mkRecord (.str "0xAAA") (.str "0xBBB")), .success .null⟩
      signedReq).2 = [.parse, .fetchTx (.str "tx"), .abortTx (.str "tx")] ∧
    countAborts (fordefi_webhook okB64 okVerify (loadsOf (eventData (.str "tx")))
      ⟨.success (mkRecord (.str "0xAAA") (.str "0xBBB")), .success .null⟩
      signedReq).2 = 1 :=
  webhook_mismatch_aborts_exactly_once okB64 okVerify (loadsOf (eventData (.str "tx")))
    ⟨.success (mkRecord (.str "0xAAA") (.str "0xBBB")), .success .null⟩ signedReq
    "sig" (eventData (.str "tx")) (.str "tx")
    (mkRecord (.str "0xAAA") (.str "0xBBB"))
    (.arr [.obj [("from", .obj [("vault", .obj [("address", .str "0xAAA")])])]])
    "0xAAA" "0xBBB" rfl (by decide) rfl rfl rfl rfl rfl rfl rfl rfl (by decide)
    rfl (by decide) (by decide)

/-- C5: the decision is invariant under ASCII case changes: when both
extracted addresses are present non-empty strings that agree after ASCII
lower-casing, the run answers 200 "Webhook received successfully" and the
trace contains no abort. -/
theorem webhook_case_insensitive_allow
    (b64decode : String → PyResult (List Nat))
    (ecdsaVerify : List Nat → List Nat → PyResult Bool)
    (jsonLoads : List Nat → Option Json) (w : World) (req : Request)
    (s : String) (data txId td ts : Json) (o r : String)
    (hsig : req.xSignature = some s) (hne : s ≠ "")
    (hver : verify_signature b64decode ecdsaVerify s req.rawBody = true)
    (hparse : jsonLoads req.rawBody = some data)
    (hid : getTransactionId data = .ok txId) (htruthy : txId.truthy = true)
    (hfetch : w.fetchResult = .success td) (htd : td.truthy = true)
    (hts : getTransfers td = .ok ts)
    (hvault : extractVaultAddress ts = .ok (.str o)) (ho : o ≠ "")
    (hrecv : getReceiverAddress td = .ok (.str r)) (hr : r ≠ "")
    (heq : asciiLower o = asciiLower r) :
    fordefi_webhook b64decode ecdsaVerify jsonLoads w req =
      (.ok "Webhook received successfully", [.parse, .fetchTx txId]) := by
  simp [fordefi_webhook, hsig, hne, hver, hparse, processEvent, hid, htruthy,
    hfetch, htd, evaluateRecord, hts, hvault, hrecv, decideAndMaybeAbort,
    Json.truthy_str, ho, hr, pyLower, heq]

/-- Witness for C5: origin "0xABC", receiver "0xabc". -/
theorem webhook_case_insensitive_allow_witness :
    fordefi_webhook okB64 okVerify (loadsOf (eventData (.str "tx")))
      ⟨.success (mkRecord (.str "0xABC") (.str "0xabc")), .reqError⟩ signedReq =
      (.ok "Webhook received successfully", [.parse, .fetchTx (.str "tx")]) :=
  webhook_case_insensitive_allow okB64 okVerify (loadsOf (eventData (.str "tx")))
    ⟨.success (mkRecord (.str "0xABC") (.str "0xabc")), .reqError⟩ signedReq
    "sig" (eventData (.str "tx")) (.str "tx")
    (mkRecord (.str "0xABC") (.str "0xabc"))
    (.arr [.obj [("from", .obj [("vault", .obj [("address", .str "0xABC")])])]])
    "0xABC" "0xabc" rfl (by decide) rfl rfl rfl rfl rfl rfl rfl rfl (by decide)
    rfl (by decide) (by decide)

/-- C6 counterexample: a fetched record whose first transfer lacks the
`from.vault.address` field path because `from` is bound to a string: the
handler raises an unhandled `AttributeError` (surfaced as a 5xx), not the
400 `MissingVaultAddress` error the claim states. -/
theorem webhook_nonobject_path_crash :
    fordefi_webhook okB64 okVerify (loadsOf (eventData (.str "tx")))
      ⟨.success badFromRecord, .reqError⟩ signedReq =
      (.crash .attributeError, [.parse, .fetchTx (.str "tx")]) ∧
    (fordefi_webhook okB64 okVerify (loadsOf (eventData (.str "tx")))
      ⟨.success badFromRecord, .reqError⟩ signedReq).1 ≠
      .httpError 400 "Vault address not found in the transaction data." :=
  ⟨rfl, by decide⟩

/-- C6 (amended): whenever the origin-vault extraction runs without a
Python type fault and yields a falsy address — which covers an empty
`transfers` list, a `from.vault.address` path missing through dict values,
and a null/empty extracted address — the handler answers 400
"Vault address not found in the transaction data." and the abort issuer is
never invoked. -/
theorem webhook_missing_vault_400
    (b64decode : String → PyResult (List Nat))
    (ecdsaVerify : List Nat → List Nat → PyResult Bool)
    (jsonLoads : List Nat → Option Json) (w : World) (req : Request)
    (s : String) (data txId td ts v : Json)
    (hsig : req.xSignature = some s) (hne : s ≠ "")
    (hver : verify_signature b64decode ecdsaVerify s req.rawBody = true)
    (hparse : jsonLoads req.rawBody = some data)
    (hid : getTransactionId data = .ok txId) (htruthy : txId.truthy = true)
    (hfetch : w.fetchResult = .success td) (htd : td.truthy = true)
    (hts : getTransfers td = .ok ts)
    (hvault : extractVaultAddress ts = .ok v) (hfalsy : v.truthy = false) :
    fordefi_webhook b64decode ecdsaVerify jsonLoads w req =
      (.httpError 400 "Vault address not found in the transaction data.",
        [.parse, .fetchTx txId]) := by
  simp [fordefi_webhook, hsig, hne, hver, hparse, processEvent, hid, htruthy,
    hfetch, htd, evaluateRecord, hts, hvault, hfalsy]

/-- Witness for the amended C6: a record with an empty `transfers` list. -/
theorem webhook_missing_vault_400_witness :
    fordefi_webhook okB64 okVerify (loadsOf (eventData (.str "tx")))
      ⟨.success emptyTransfersRecord, .reqError⟩ signedReq =
      (.httpError 400 "Vault address not found in the transaction data.",
        [.parse, .fetchTx (.str "tx")]) :=
  webhook_missing_vault_400 okB64 okVerify (loadsOf (eventData (.str "tx")))
    ⟨.success emptyTransfersRecord, .reqError⟩ signedReq "sig"
    (eventData (.str "tx")) (.str "tx") emptyTransfersRecord (.arr []) .null
    rfl (by decide) rfl rfl rfl rfl rfl rfl rfl rfl rfl

/-- C1 (code bug): at a record whose origin vault address is present
("0xAAA") and whose receiver vault address is the empty string, the handler
responds 400 "Receiver address not found in raw_data." — the source raises
on a falsy receiver at line 123 before the comparison, so the comparison's
treat-null-as-match branch (line 131 and the comment above it) is dead code
and the ALLOW the spec states never happens. -/
theorem webhook_empty_receiver_rejected_400 :
    fordefi_webhook okB64 okVerify (loadsOf (eventData (.str "tx")))
      ⟨.success (mkRecord (.str "0xAAA") (.str "")), .reqError⟩ signedReq =
      (.httpError 400 "Receiver address not found in raw_data.",
        [.parse, .fetchTx (.str "tx")]) := rfl

/-- C2 (code bug): at a record with a valid origin transfer but an empty
`balance_changes` list, the direct subscription on line 121 of the source
raises an unhandled `IndexError` (surfaced as a 5xx), not the named 400
`PayloadError` the claim states. -/
theorem webhook_short_balance_changes_crash :
    fordefi_webhook okB64 okVerify (loadsOf (eventData (.str "tx")))
      ⟨.success shortRecord, .reqError⟩ signedReq =
      (.crash .indexError, [.parse, .fetchTx (.str "tx")]) := rfl
